import Mathlib

/-!
# Verification of the custom ORM core

Shallow embedding of the ORM's field/schema model, record construction and
persistence operations, and the query builder (`orm/fields.py`,
`orm/models.py`, `orm/query.py`), together with theorems settling the
specification claims about them.

Python dynamic values are embedded as a tagged union `Value`; instances are
embedded as association lists from attribute name to `Value` (Python's
per-instance `__dict__`); fallible Python code (raising `ValueError` /
`TypeError`) is embedded as `Except`.
-/

set_option autoImplicit false

namespace Orm

/-- A Python value as it can appear in a model field: `None`, `int`, `str`,
`bool`, `datetime.datetime` (abstracted to a timestamp), or a numeric `float`
(abstracted to an exact rational; no claim computes with floats). -/
inductive Value where
  | none
  | int (n : Int)
  | str (s : String)
  | bool (b : Bool)
  | datetime (t : Nat)
  | float (q : Rat)
  deriving DecidableEq, Repr

/-- The field subclasses of `orm/fields.py`, with their per-kind extra
constructor arguments (`max_length` for `StringField`, `auto_now` /
`auto_now_add` for `DateTimeField`). -/
inductive FieldKind where
  | integer
  | string (maxLength : Nat)
  | boolean
  | datetime (autoNow : Bool) (autoNowAdd : Bool)
  | float
  deriving DecidableEq, Repr

/-- A field descriptor (`Field.__init__` plus `__set_name__`): column name,
attribute name, primary-key flag, nullability, default value, and kind.
After `__set_name__` runs, `name` defaults to the attribute name when the
constructor received no explicit name. -/
structure Field where
  name : String
  attrName : String
  primaryKey : Bool
  nullable : Bool
  default : Value
  kind : FieldKind
  deriving DecidableEq, Repr

/-- The `validate` method of each field subclass. Python subtlety embedded
faithfully: `bool` is a subclass of `int`, so `isinstance(value, int)` is
true for booleans (`IntegerField`, `FloatField`, and the membership test
`value not in (0, 1)` of `BooleanField`, where `True == 1` and
`False == 0`). -/
def validateValue (attrName : String) (k : FieldKind) (v : Value) : Except String Unit :=
  match k, v with
  | _, .none => .ok ()
  | .integer, .int _ => .ok ()
  | .integer, .bool _ => .ok ()
  | .integer, _ => .error (attrName ++ " must be an integer")
  | .string maxLength, .str s =>
    if s.length > maxLength then
      .error (attrName ++ " cannot exceed " ++ toString maxLength ++ " characters")
    else .ok ()
  | .string _, _ => .error (attrName ++ " must be a string")
  | .boolean, .bool _ => .ok ()
  | .boolean, .int n =>
    if n = 0 ∨ n = 1 then .ok () else .error (attrName ++ " must be 0, 1, True, or False")
  | .boolean, _ => .error (attrName ++ " must be a boolean or integer")
  | .datetime _ _, .datetime _ => .ok ()
  | .datetime _ _, _ => .error (attrName ++ " must be a datetime object")
  | .float, .int _ => .ok ()
  | .float, .bool _ => .ok ()
  | .float, .float _ => .ok ()
  | .float, _ => .error (attrName ++ " must be a number")

/-- The dispatched `self.validate(value)` call on a field. -/
def fieldValidate (f : Field) (v : Value) : Except String Unit :=
  validateValue f.attrName f.kind v

/-- The value a `BooleanField.__set__` stores: `if isinstance(value, int):
value = bool(value)`. Python booleans are instances of `int` and
`bool(b) = b`; `bool(n)` is `n ≠ 0` for an integer. Other values (including
`None`) are stored unchanged. -/
def boolCoerce : Value → Value
  | .int n => .bool (n ≠ 0)
  | .bool b => .bool b
  | v => v

/-- The value a setter stores for a given field kind: `BooleanField.__set__`
coerces integer booleans; every other kind stores the validated value
unchanged. -/
def storeValue (k : FieldKind) (v : Value) : Value :=
  match k with
  | .boolean => boolCoerce v
  | _ => v

/-- The descriptor setter: `Field.__set__` (and its override
`BooleanField.__set__`, which is identical except that it coerces integer
booleans before storing). Returns the value stored into the instance
`__dict__`, or the `ValueError` message raised. -/
def fieldSet (f : Field) (v : Value) : Except String Value :=
  if f.nullable = false ∧ v = Value.none then
    .error (f.attrName ++ " cannot be None")
  else
    match fieldValidate f v with
    | .error m => .error m
    | .ok _ => .ok (storeValue f.kind v)

/-- The schema metadata the `model_fields` decorator installs on a model
class: `__name__`, `__table__`, `__fields__` (attribute declaration order,
as Python class dicts preserve it), and `__primary_key__`. -/
structure Schema where
  name : String
  table : String
  fields : List Field
  primaryKey : Option Field
  deriving Repr

/-- The `model_fields` decorator (`orm/models.py` lines 145-166): collects
the declared fields in declaration order, sets `__primary_key__` by
assignment inside the loop (so a later `primary_key=True` field overwrites
an earlier one), and derives `__table__` as the lower-cased class name plus
"s" when the class declares none. It has no error path. -/
def model_fields (clsName : String) (tableName : Option String) (declared : List Field) : Schema :=
  { name := clsName
    table := tableName.getD (clsName.toLower ++ "s")
    fields := declared
    primaryKey := declared.foldl (fun acc f => if f.primaryKey then some f else acc) Option.none }

/-- A model instance's `__dict__`: attribute name to stored value, in
insertion order. -/
abbrev Inst := List (String × Value)

/-- Python dict read with fallback (`instance.__dict__.get(attr, default)`,
the body of `Field.__get__`). -/
def getVal (inst : Inst) (k : String) : Option Value :=
  (inst.find? (fun kv => kv.1 = k)).map (fun kv => kv.2)

/-- `getattr(instance, f._attr_name)` through the descriptor `Field.__get__`:
the stored value, or the field default when the attribute was never stored. -/
def getAttr (inst : Inst) (f : Field) : Value :=
  (getVal inst f.attrName).getD f.default

/-- Python dict write (`instance.__dict__[attr] = value`): replace the
existing entry in place, or append a new one. -/
def setVal : Inst → String → Value → Inst
  | [], k, v => [(k, v)]
  | (k', v') :: rest, k, v =>
    if k' = k then (k, v) :: rest else (k', v') :: setVal rest k v

/-- `kwargs.pop(key, default)`: the popped (or default) value together with
the remaining kwargs. -/
def popKw : List (String × Value) → String → Value → Value × List (String × Value)
  | [], _, dflt => (dflt, [])
  | (k', v') :: rest, k, dflt =>
    if k' = k then (v', rest)
    else
      let r := popKw rest k dflt
      (r.1, (k', v') :: r.2)

/-- The errors `Model.__init__` can raise: a `ValueError` from a field
setter, or the trailing `TypeError` naming the unexpected keyword
arguments. -/
inductive OrmError where
  | valueError (msg : String)
  | typeError (keys : List String)
  deriving DecidableEq, Repr

/-- The field-initialisation loop of `Model.__init__`: for each declared
field in order, `setattr(self, name, kwargs.pop(name, field.default))`.
Returns the populated instance dict and the kwargs left unpopped, or the
first `ValueError` a setter raises. -/
def initFields (inst : Inst) (fields : List Field) (kwargs : List (String × Value)) :
    Except OrmError (Inst × List (String × Value)) :=
  match fields with
  | [] => .ok (inst, kwargs)
  | f :: rest =>
    let p := popKw kwargs f.attrName f.default
    match fieldSet f p.1 with
    | .error m => .error (.valueError m)
    | .ok stored => initFields (setVal inst f.attrName stored) rest p.2

/-- `Model.__init__` (`orm/models.py` lines 15-21): run the field loop, then
raise `TypeError` listing the remaining kwargs keys if any are left. -/
def initModel (s : Schema) (kwargs : List (String × Value)) : Except OrmError Inst :=
  match initFields [] s.fields kwargs with
  | .error e => .error e
  | .ok p => if p.2.isEmpty then .ok p.1 else .error (.typeError (p.2.map (fun kv => kv.1)))

/-- The storage interface as the query builder consumes it (`Database` in
`orm/db.py`): `fetch_one` returning at most one row as a column-name map.
It is the external collaborator boundary, so it is abstracted to a function. -/
structure Db where
  fetchOne : String → List Value → Option (List (String × Value))

/-- A `Query` object's state (`Query.__init__`): target model class (its
schema), database handle, and the accumulated filter fragments, bound
parameters, order, limit and offset, with the source's attribute names. -/
structure Query where
  schema : Schema
  db : Db
  _filters : List String
  _filterParams : List Value
  _orderBy : Option String
  _limit : Option Int
  _offset : Option Int

namespace Query

/-- `Query._clone`: a fresh `Query` on the same model class and database,
with copies of the filter and parameter lists and the same order, limit and
offset. -/
def clone (q : Query) : Query :=
  { schema := q.schema
    db := q.db
    _filters := q._filters
    _filterParams := q._filterParams
    _orderBy := q._orderBy
    _limit := q._limit
    _offset := q._offset }

/-- `Query.filter`: clone, then extend the clone's filter fragments with the
caller-supplied raw conditions. -/
def filter (q : Query) (conditions : List String) : Query :=
  let query := clone q
  { query with _filters := query._filters ++ conditions }

/-- `__fields__.get(attr_name)`: resolve a field by attribute name in the
schema. -/
def lookupField (s : Schema) (attrName : String) : Option Field :=
  s.fields.find? (fun f => f.attrName = attrName)

/-- The keyword loop of `Query.filter_by`: for each keyword in order,
resolve the field by attribute name in the model class's schema (raising
`ValueError` on an unknown name) and append the equality fragment
`<column> = ?` and its bound value to the accumulating query. -/
def filterByLoop (s : Schema) (query : Query) : List (String × Value) → Except OrmError Query
  | [] => .ok query
  | kv :: rest =>
    match lookupField s kv.1 with
    | Option.none => .error (.valueError (s.name ++ " has no field named " ++ kv.1))
    | some field =>
      filterByLoop s
        { query with
            _filters := query._filters ++ [field.name ++ " = ?"]
            _filterParams := query._filterParams ++ [kv.2] }
        rest

/-- `Query.filter_by`: clone, then run the keyword loop on the clone. -/
def filter_by (q : Query) (kwargs : List (String × Value)) : Except OrmError Query :=
  filterByLoop q.schema (clone q) kwargs

/-- `Query.order_by`: clone, resolve the field by name (raising `ValueError`
on an unknown name), and replace the order clause with
`<column> ASC` or `<column> DESC`. -/
def order_by (q : Query) (fieldName : String) (ascending : Bool) : Except OrmError Query :=
  let query := clone q
  match lookupField q.schema fieldName with
  | Option.none => .error (.valueError (q.schema.name ++ " has no field named " ++ fieldName))
  | some field =>
    .ok { query with _orderBy := some (field.name ++ " " ++ (if ascending then "ASC" else "DESC")) }

/-- `Query.limit`: clone with the limit replaced. -/
def limit (q : Query) (n : Int) : Query :=
  { clone q with _limit := some n }

/-- `Query.offset`: clone with the offset replaced. -/
def offset (q : Query) (n : Int) : Query :=
  { clone q with _offset := some n }

/-- `' '.join(parts)` over the SQL clause fragments. -/
def joinSql (parts : List String) : String :=
  String.intercalate " " parts

/-- `Query._build_sql` (`orm/query.py` lines 68-92): SELECT clause over the
schema's columns, then WHERE when the filter list is non-empty, ORDER BY
when `_order_by` is truthy (a non-`None`, non-empty string), LIMIT when set,
and OFFSET when set — preceded by the sentinel `LIMIT -1` when no limit was
set. Returns the joined SQL and the bound parameters. -/
def build_sql (q : Query) : String × List Value :=
  let fieldNames := q.schema.fields.map (fun f => f.name)
  let selectSql := "SELECT " ++ String.intercalate ", " fieldNames ++ " FROM " ++ q.schema.table
  let parts1 := [selectSql]
  let parts2 :=
    if q._filters.isEmpty then parts1
    else parts1 ++ ["WHERE " ++ String.intercalate " AND " q._filters]
  let parts3 :=
    match q._orderBy with
    | some ob => if ob = "" then parts2 else parts2 ++ ["ORDER BY " ++ ob]
    | Option.none => parts2
  let parts4 :=
    match q._limit with
    | some n => parts3 ++ ["LIMIT " ++ toString n]
    | Option.none => parts3
  let parts5 :=
    match q._offset with
    | some n =>
      (match q._limit with
       | Option.none => parts4 ++ ["LIMIT -1"]
       | some _ => parts4) ++ ["OFFSET " ++ toString n]
    | Option.none => parts4
  (joinSql parts5, q._filterParams)

/-- The specification's description of SQL compilation, written from the
spec's words for the comparison in claim C5: clauses in the fixed order
`SELECT <columns> FROM <table>`, then `WHERE <filters joined by AND>`
(if any), then `ORDER BY` (if set), then `LIMIT`, then `OFFSET`, with a
sentinel no-limit `LIMIT` clause emitted before `OFFSET` whenever an offset
is set but no limit is. -/
def specSqlParts (q : Query) : List String :=
  ["SELECT " ++ String.intercalate ", " (q.schema.fields.map (fun f => f.name))
     ++ " FROM " ++ q.schema.table]
  ++ (if q._filters.isEmpty then [] else ["WHERE " ++ String.intercalate " AND " q._filters])
  ++ (match q._orderBy with
      | some ob => ["ORDER BY " ++ ob]
      | Option.none => [])
  ++ (match q._limit with
      | some n => ["LIMIT " ++ toString n]
      | Option.none => [])
  ++ (match q._offset with
      | some n => (if q._limit = Option.none then ["LIMIT -1"] else []) ++ ["OFFSET " ++ toString n]
      | Option.none => [])

/-- `Query._row_to_model`: collect, per declared field, the row entry under
the field's column name (skipping columns absent from the row), then
construct the model through `Model.__init__`. -/
def rowToModel (s : Schema) (row : List (String × Value)) : Except OrmError Inst :=
  let kwargs := s.fields.filterMap (fun f => (getVal row f.name).map (fun v => (f.attrName, v)))
  initModel s kwargs

/-- `Query.first`: clone with the limit forced to 1, build and run the SQL
through `fetch_one`, and hydrate the row when one truthy (non-empty) row
comes back. -/
def first (q : Query) : Except OrmError (Option Inst) :=
  let query := { clone q with _limit := some (1 : Int) }
  let sp := build_sql query
  match q.db.fetchOne sp.1 sp.2 with
  | some row => if row.isEmpty then .ok Option.none else (rowToModel q.schema row).map some
  | Option.none => .ok Option.none

end Query

/-- `Model.select`: a fresh `Query` over the model's schema and the given
database. -/
def select (db : Db) (s : Schema) : Query :=
  { schema := s
    db := db
    _filters := []
    _filterParams := []
    _orderBy := Option.none
    _limit := Option.none
    _offset := Option.none }

/-- `Model.get` (`orm/models.py` lines 73-79): raise `ValueError` when the
schema has no primary key; otherwise filter the fresh query by the
primary-key attribute bound to `id` and take `first()`. -/
def get (db : Db) (s : Schema) (id : Value) : Except OrmError (Option Inst) :=
  match s.primaryKey with
  | Option.none => .error (.valueError (s.name ++ " has no primary key"))
  | some pk =>
    match Query.filter_by (select db s) [(pk.attrName, id)] with
    | .error e => .error e
    | .ok query => query.first

/-- The composition the specification equates `get(id)` with:
`select().filter_by(primary_key = id).first()`, failing only when the
schema has no primary key. Modelled from the spec sentence for the
refinement claim C7. -/
def getAsSpelledInSpec (db : Db) (s : Schema) (id : Value) : Except OrmError (Option Inst) :=
  match s.primaryKey with
  | Option.none => .error (.valueError (s.name ++ " has no primary key"))
  | some pk => (Query.filter_by (select db s) [(pk.attrName, id)]).bind Query.first

/-- `Model.save` dispatch (`orm/models.py` lines 81-89), reified as a
boolean: `true` when the call runs `_insert`, `false` when it runs
`_update`. Insert happens when there is no primary key, or the primary-key
attribute is `None`. -/
def saveIsInsert (s : Schema) (inst : Inst) : Bool :=
  match s.primaryKey with
  | some pk => getAttr inst pk = Value.none
  | Option.none => true

/-- The field list `Model._insert` binds: every declared field except a
primary-key-flagged field whose current value is still `None` (skipped so
the storage engine assigns it). -/
def insertFields (s : Schema) (inst : Inst) : List Field :=
  s.fields.filter (fun f => ¬(f.primaryKey = true ∧ getAttr inst f = Value.none))

/-- The `INSERT` statement and bound values `Model._insert` executes. -/
def insertStmt (s : Schema) (inst : Inst) : String × List Value :=
  let fs := insertFields s inst
  let fieldNames := fs.map (fun f => f.name)
  let values := fs.map (fun f => getAttr inst f)
  let placeholders := String.intercalate ", " (fs.map (fun _ => "?"))
  ("INSERT INTO " ++ s.table ++ " (" ++ String.intercalate ", " fieldNames
     ++ ") VALUES (" ++ placeholders ++ ")", values)

/-- The tail of `Model._insert` (lines 110-111): when the schema has a
primary key whose attribute is still `None`, write `cursor.lastrowid` back
through the descriptor setter (which validates it); otherwise leave the
instance unchanged. -/
def insertWriteback (s : Schema) (inst : Inst) (lastrowid : Int) : Except String Inst :=
  match s.primaryKey with
  | some pk =>
    if getAttr inst pk = Value.none then
      (fieldSet pk (Value.int lastrowid)).map (fun stored => setVal inst pk.attrName stored)
    else .ok inst
  | Option.none => .ok inst

/-- `Model.delete` up to SQL execution (`orm/models.py` lines 127-135):
raise `ValueError` before any SQL is built when the schema has no primary
key; otherwise the DELETE statement and its single bound parameter. -/
def deleteStmt (s : Schema) (inst : Inst) : Except String (String × List Value) :=
  match s.primaryKey with
  | Option.none => .error (s.name ++ " has no primary key")
  | some pk =>
    .ok ("DELETE FROM " ++ s.table ++ " WHERE " ++ pk.name ++ " = ?", [getAttr inst pk])

/-- The tail of `Model.delete` (line 138): reset the primary-key attribute
to `None` through the descriptor setter (which enforces nullability). -/
def deleteReset (s : Schema) (inst : Inst) : Except String Inst :=
  match s.primaryKey with
  | Option.none => .error (s.name ++ " has no primary key")
  | some pk => (fieldSet pk Value.none).map (fun stored => setVal inst pk.attrName stored)

/-! ## Concrete schemas for witnesses and counterexamples

These mirror the model declarations in `tests/test_orm.py` and `main.py`
(integer auto-increment primary keys, a non-nullable string column, a
boolean column with a default, `auto_now_add` datetime columns), plus the
degenerate declarations the counterexamples need. -/

/-- `id = IntegerField(primary_key=True)`. -/
def idF : Field := ⟨"id", "id", true, true, Value.none, FieldKind.integer⟩

/-- `name = StringField(max_length=100, nullable=False)`. -/
def nameF : Field := ⟨"name", "name", false, false, Value.none, FieldKind.string 100⟩

/-- `active = BooleanField(default=True)`. -/
def activeF : Field := ⟨"active", "active", false, true, Value.bool true, FieldKind.boolean⟩

/-- `created_at = DateTimeField(auto_now_add=True)` as in `main.py`. -/
def createdF : Field := ⟨"created_at", "created_at", false, true, Value.none, FieldKind.datetime false true⟩

/-- `code = StringField(max_length=10, primary_key=True)`: a string
primary key. -/
def codeF : Field := ⟨"code", "code", true, true, Value.none, FieldKind.string 10⟩

/-- `id = IntegerField(primary_key=True, nullable=False)`: a non-nullable
primary key. -/
def idNNF : Field := ⟨"id", "id", true, false, Value.none, FieldKind.integer⟩

/-- The registered `TestModel` schema of the test suite (pared to the fields
the claims exercise). -/
def schT : Schema := model_fields "TestModel" (some "test_models") [idF, nameF, activeF]

/-- A `User`-style schema with an `auto_now_add` datetime column. -/
def schDT : Schema := model_fields "User" (some "users") [idF, createdF]

/-- A schema declaring no primary key at all. -/
def schNoPk : Schema := model_fields "Plain" (some "plains") [nameF]

/-- A schema whose primary key is a string field. -/
def schStrPk : Schema := model_fields "Item" (some "items") [codeF, nameF]

/-- A schema whose primary key is declared non-nullable. -/
def schNNPk : Schema := model_fields "Strict" (some "stricts") [idNNF, nameF]

/-- A database whose `fetch_one` finds no row. -/
def dbNone : Db := ⟨fun _ _ => Option.none⟩

/-- A fresh query over `schT` against `dbNone`. -/
def qW : Query := select dbNone schT

/-! ## Helper lemmas -/

/-- The `model_fields` primary-key loop keeps the last declared
primary-key-flagged field: folding the overwrite step equals searching the
reversed declaration list. -/
theorem foldl_pk_eq (declared : List Field) (acc : Option Field) :
    declared.foldl (fun acc f => if f.primaryKey then some f else acc) acc
      = (declared.reverse.find? (fun f => f.primaryKey)).or acc := by
  induction declared generalizing acc with
  | nil => simp
  | cons f rest ih =>
    simp only [List.foldl_cons, List.reverse_cons, List.find?_append, ih]
    cases hf : rest.reverse.find? (fun f => f.primaryKey) <;>
      cases hpk : f.primaryKey <;>
        simp [Option.or, List.find?, hpk, hf]

/-- Reading back the key just written into an instance dict. -/
theorem getVal_setVal (inst : Inst) (k : String) (v : Value) :
    getVal (setVal inst k v) k = some v := by
  induction inst with
  | nil => simp [setVal, getVal, List.find?]
  | cons kv rest ih =>
    by_cases h : kv.1 = k
    · simp [setVal, getVal, List.find?, h]
    · simpa [setVal, getVal, List.find?, h] using ih

/-- `kwargs.pop(k, d)` on a dict not containing `k` returns the default and
leaves the dict unchanged. -/
theorem popKw_not_mem (kwargs : List (String × Value)) (k : String) (d : Value)
    (h : k ∉ kwargs.map Prod.fst) : popKw kwargs k d = (d, kwargs) := by
  induction kwargs with
  | nil => rfl
  | cons kv rest ih =>
    simp only [List.map_cons, List.mem_cons, not_or] at h
    have hne : ¬ kv.1 = k := fun hk => h.1 hk.symm
    simp [popKw, hne, ih h.2]

/-- The dict remaining after `kwargs.pop` is a sublist of the original. -/
theorem popKw_snd_sublist (kwargs : List (String × Value)) (k : String) (d : Value) :
    (popKw kwargs k d).2.Sublist kwargs := by
  induction kwargs with
  | nil => simp [popKw]
  | cons kv rest ih =>
    by_cases h : kv.1 = k
    · simp [popKw, h, List.sublist_cons_self]
    · simpa [popKw, h] using ih.cons₂ kv

/-- A key absent from a kwargs dict is still absent after a `pop`. -/
theorem not_mem_popKw_snd (kwargs : List (String × Value)) (k k' : String) (d : Value)
    (h : k' ∉ kwargs.map Prod.fst) : k' ∉ ((popKw kwargs k d).2.map Prod.fst) :=
  fun hmem => h (((popKw_snd_sublist kwargs k d).map Prod.fst).mem hmem)

/-- If some declared field is non-nullable with a `None` default and its
keyword is absent, the `Model.__init__` field loop raises a `ValueError`
(either at that field's not-nullable check, or already at an earlier
field). -/
theorem initFields_error_of_missing (f : Field) (hnn : f.nullable = false)
    (hd : f.default = Value.none) :
    ∀ (fields : List Field) (inst : Inst) (kwargs : List (String × Value)),
      f ∈ fields → f.attrName ∉ kwargs.map Prod.fst →
      ∃ m, initFields inst fields kwargs = .error (.valueError m) := by
  intro fields
  induction fields with
  | nil => intro inst kwargs hmem _; exact absurd hmem (List.not_mem_nil f)
  | cons g rest ih =>
    intro inst kwargs hmem hnot
    rcases List.mem_cons.mp hmem with rfl | hmem'
    · have hpop : popKw kwargs f.attrName f.default = (Value.none, kwargs) := by
        rw [popKw_not_mem _ _ _ hnot, hd]
      exact ⟨f.attrName ++ " cannot be None", by simp [initFields, hpop, fieldSet, hnn]⟩
    · cases hset : fieldSet g (popKw kwargs g.attrName g.default).1 with
      | error m => exact ⟨m, by simp [initFields, hset]⟩
      | ok stored =>
        obtain ⟨m, hm⟩ := ih (setVal inst g.attrName stored)
          (popKw kwargs g.attrName g.default).2 hmem'
          (not_mem_popKw_snd _ _ _ _ hnot)
        exact ⟨m, by simp [initFields, hset, hm]⟩

/-- The predicate selecting kwargs entries whose key is not among `ks`. -/
def keyNotIn (ks : List String) (kv : String × Value) : Bool :=
  decide (kv.1 ∉ ks)

/-- Popping one key and then filtering out the keys of `A` is filtering out
the keys of `k :: A`, provided the dict keys are distinct (as Python
guarantees for kwargs). -/
theorem popKw_filter (k : String) (d : Value) (A : List String) :
    ∀ (kwargs : List (String × Value)), (kwargs.map Prod.fst).Nodup →
      ((popKw kwargs k d).2).filter (keyNotIn A)
        = kwargs.filter (keyNotIn (k :: A)) := by
  intro kwargs
  induction kwargs with
  | nil => intro _; simp [popKw]
  | cons kv rest ih =>
    intro hnd
    simp only [List.map_cons, List.nodup_cons] at hnd
    by_cases hk : kv.1 = k
    · have hhead : keyNotIn (k :: A) kv = false := by simp [keyNotIn, List.mem_cons, hk]
      have hcong : ∀ kv' ∈ rest, keyNotIn A kv' = keyNotIn (k :: A) kv' := by
        intro kv' hmem
        have hne : kv'.1 ≠ k := fun he =>
          hnd.1 (by rw [hk, ← he]; exact List.mem_map_of_mem Prod.fst hmem)
        simp [keyNotIn, List.mem_cons, hne]
      simp only [popKw, hk, if_pos, List.filter_cons, hhead, Bool.false_eq_true, if_false]
      exact List.filter_congr hcong
    · have hcond : keyNotIn (k :: A) kv = keyNotIn A kv := by
        simp [keyNotIn, List.mem_cons, hk]
      have ht := ih hnd.2
      simp only [popKw, hk, if_false, List.filter_cons, hcond, ht]

/-- When the `Model.__init__` field loop finishes without a `ValueError`,
the kwargs left over are exactly the ones whose key names no declared
field, in their original order (distinct kwargs keys, as Python
guarantees). -/
theorem initFields_ok_rem :
    ∀ (fields : List Field) (inst : Inst) (kwargs : List (String × Value)),
      (kwargs.map Prod.fst).Nodup →
      ∀ i rem, initFields inst fields kwargs = .ok (i, rem) →
      rem = kwargs.filter (keyNotIn (fields.map Field.attrName)) := by
  intro fields
  induction fields with
  | nil =>
    intro inst kwargs _ i rem h
    simp only [initFields, Except.ok.injEq, Prod.mk.injEq] at h
    rw [← h.2]
    exact (List.filter_eq_self.mpr (fun kv _ => by simp [keyNotIn])).symm
  | cons f rest ih =>
    intro inst kwargs hnd i rem h
    simp only [initFields] at h
    cases hset : fieldSet f (popKw kwargs f.attrName f.default).1 with
    | error m => rw [hset] at h; exact absurd h (by simp)
    | ok stored =>
      rw [hset] at h
      have hnd' : (((popKw kwargs f.attrName f.default).2).map Prod.fst).Nodup :=
        hnd.sublist ((popKw_snd_sublist _ _ _).map Prod.fst)
      have hr := ih _ _ hnd' i rem h
      rw [hr, popKw_filter f.attrName f.default _ kwargs hnd]
      simp

/-- Running the `filter_by` keyword loop from any starting query, when it
succeeds, appends one `<column> = ?` fragment and one bound value per
keyword in order and leaves every other component of the query state
untouched. -/
theorem filterByLoop_ok (s : Schema) :
    ∀ (kwargs : List (String × Value)) (q0 q' : Query),
      Query.filterByLoop s q0 kwargs = .ok q' →
      q'.schema = q0.schema ∧ q'.db = q0.db ∧ q'._orderBy = q0._orderBy ∧
      q'._limit = q0._limit ∧ q'._offset = q0._offset ∧
      q'._filters = q0._filters ++ kwargs.map (fun kv =>
        (match Query.lookupField s kv.1 with
         | some f => f.name
         | Option.none => "") ++ " = ?") ∧
      q'._filterParams = q0._filterParams ++ kwargs.map Prod.snd := by
  intro kwargs
  induction kwargs with
  | nil =>
    intro q0 q' h
    simp only [Query.filterByLoop, Except.ok.injEq] at h
    subst h
    simp
  | cons kv rest ih =>
    intro q0 q' h
    simp only [Query.filterByLoop] at h
    cases hl : Query.lookupField s kv.1 with
    | none => rw [hl] at h; exact absurd h (by simp)
    | some field =>
      rw [hl] at h
      obtain ⟨h1, h2, h3, h4, h5, h6, h7⟩ := ih _ _ h
      refine ⟨h1, h2, h3, h4, h5, ?_, ?_⟩
      · rw [h6]; simp [hl]
      · rw [h7]; simp

/-! ## Claim theorems -/

/-- C1 (amended): registering a schema whose declaration carries two or more
`primary_key=True` fields does not fail — `model_fields` has no error path.
It silently succeeds, keeps every declared field, and designates the
last-declared primary-key-flagged field as the schema's primary key. -/
theorem model_fields_keeps_last_pk (clsName : String) (tableName : Option String)
    (declared : List Field) :
    (model_fields clsName tableName declared).fields = declared ∧
    (model_fields clsName tableName declared).primaryKey
      = declared.reverse.find? (fun f => f.primaryKey) := by
  refine ⟨rfl, ?_⟩
  show declared.foldl _ Option.none = _
  rw [foldl_pk_eq]
  cases declared.reverse.find? (fun f => f.primaryKey) <;> simp [Option.or]

/-- C1 counterexample: a schema declared with two `primary_key=True` fields
(`id`, then `code`). The claim says this registration fails at declaration
time; instead `model_fields` returns a complete schema — it silently
succeeds, with the later field `code` as the primary key. -/
theorem model_fields_two_pk_counterexample :
    model_fields "Dup" (some "dups") [idNNF, codeF]
      = { name := "Dup", table := "dups", fields := [idNNF, codeF],
          primaryKey := some codeF } := rfl

/-- C2 (code bug): `created_at` is declared `DateTimeField(auto_now_add=True)`,
yet constructing an instance without an explicit value leaves it at the
field default `None` — no construction path ever reads the `auto_now_add`
flag or the clock, so the field is Null, not the current timestamp. -/
theorem auto_now_add_field_left_null :
    initModel schDT [] = .ok [("id", Value.none), ("created_at", Value.none)] ∧
    createdF.kind = FieldKind.datetime false true := ⟨rfl, rfl⟩

/-- C6: the descriptor setter — the single path used both at construction
and on later mutation, for every field kind — rejects `None` on a
non-nullable field with the not-nullable `ValueError`; and construction
that omits a non-nullable field having no default fails with a
`ValueError`. -/
theorem non_nullable_null_rejected (f : Field) (s : Schema) (kwargs : List (String × Value))
    (hnn : f.nullable = false) :
    fieldSet f Value.none = .error (f.attrName ++ " cannot be None") ∧
    (f ∈ s.fields → f.default = Value.none → f.attrName ∉ kwargs.map Prod.fst →
      ∃ m, initModel s kwargs = .error (.valueError m)) := by
  constructor
  · simp [fieldSet, hnn]
  · intro hmem hd hnot
    obtain ⟨m, hm⟩ := initFields_error_of_missing f hnn hd s.fields [] kwargs hmem hnot
    exact ⟨m, by simp [initModel, hm]⟩

/-- Witness for C6 at the test-suite schema: `name` is non-nullable with no
default, so assigning `None` raises, and `TestModel()` with no arguments
fails with a `ValueError`. -/
theorem non_nullable_null_rejected_witness :
    nameF.nullable = false ∧
    fieldSet nameF Value.none = .error (nameF.attrName ++ " cannot be None") ∧
    (∃ m, initModel schT [] = .error (.valueError m)) := by
  refine ⟨rfl, (non_nullable_null_rejected nameF schT [] rfl).1, ?_⟩
  exact (non_nullable_null_rejected nameF schT [] rfl).2 (by decide) rfl (by simp)

/-- C9: a boolean field stores integer `1`/`0` as boolean `true`/`false`,
rejects every other integer with a `ValueError`, and stores booleans
unchanged — all through the setter used at construction and mutation. -/
theorem boolean_coercion (f : Field) (hb : f.kind = FieldKind.boolean) :
    fieldSet f (Value.int 1) = .ok (Value.bool true) ∧
    fieldSet f (Value.int 0) = .ok (Value.bool false) ∧
    (∀ n : Int, n ≠ 0 → n ≠ 1 →
      fieldSet f (Value.int n) = .error (f.attrName ++ " must be 0, 1, True, or False")) ∧
    (∀ b : Bool, fieldSet f (Value.bool b) = .ok (Value.bool b)) := by
  refine ⟨?_, ?_, ?_, ?_⟩
  · simp [fieldSet, fieldValidate, hb, validateValue, storeValue, boolCoerce]
  · simp [fieldSet, fieldValidate, hb, validateValue, storeValue, boolCoerce]
  · intro n h0 h1
    simp [fieldSet, fieldValidate, hb, validateValue, storeValue, h0, h1]
  · intro b
    simp [fieldSet, fieldValidate, hb, validateValue, storeValue, boolCoerce]

/-- Witness for C9 at the `active` field of the test-suite schema. -/
theorem boolean_coercion_witness :
    activeF.kind = FieldKind.boolean ∧
    fieldSet activeF (Value.int 1) = .ok (Value.bool true) ∧
    fieldSet activeF (Value.int 0) = .ok (Value.bool false) ∧
    fieldSet activeF (Value.int 5) = .error (activeF.attrName ++ " must be 0, 1, True, or False") ∧
    fieldSet activeF (Value.bool false) = .ok (Value.bool false) := by
  have h := boolean_coercion activeF rfl
  exact ⟨rfl, h.1, h.2.1, h.2.2.1 5 (by decide) (by decide), h.2.2.2 false⟩

/-- C10: when the declared-field loop of `Model.__init__` completes without
a `ValueError` and some keyword names no declared field, construction
raises the `TypeError` carrying exactly the undeclared keys, in order. -/
theorem unexpected_kwargs_raise (s : Schema) (kwargs : List (String × Value))
    (i : Inst) (rem : List (String × Value)) (k : String) (v : Value)
    (hnd : (kwargs.map Prod.fst).Nodup)
    (hok : initFields [] s.fields kwargs = .ok (i, rem))
    (hkv : (k, v) ∈ kwargs) (hk : k ∉ s.fields.map Field.attrName) :
    initModel s kwargs
      = .error (.typeError
          ((kwargs.filter (keyNotIn (s.fields.map Field.attrName))).map Prod.fst)) := by
  have hrem := initFields_ok_rem s.fields [] kwargs hnd i rem hok
  have hne : rem ≠ [] := by
    rw [hrem]
    intro hempty
    have hmem : (k, v) ∈ kwargs.filter (keyNotIn (s.fields.map Field.attrName)) :=
      List.mem_filter.mpr ⟨hkv, by simp [keyNotIn, hk]⟩
    rw [hempty] at hmem
    exact List.not_mem_nil _ hmem
  have hfalse : rem.isEmpty = false := by
    cases rem with
    | nil => exact absurd rfl hne
    | cons a l => rfl
  have hres : initModel s kwargs = .error (.typeError (rem.map Prod.fst)) := by
    simp [initModel, hok, hfalse]
  rw [hres, hrem]

/-- Witness for C10: constructing `TestModel(name="x", bogus=1)` raises the
`TypeError` naming exactly `bogus`. -/
theorem unexpected_kwargs_raise_witness :
    initModel schT [("name", Value.str "x"), ("bogus", Value.int 1)]
      = .error (.typeError
          ((([("name", Value.str "x"), ("bogus", Value.int 1)] : List (String × Value)).filter
              (keyNotIn (schT.fields.map Field.attrName))).map Prod.fst)) ∧
    ((([("name", Value.str "x"), ("bogus", Value.int 1)] : List (String × Value)).filter
        (keyNotIn (schT.fields.map Field.attrName))).map Prod.fst) = ["bogus"] := by
  refine ⟨?_, by decide⟩
  exact unexpected_kwargs_raise schT [("name", Value.str "x"), ("bogus", Value.int 1)]
    [("id", Value.none), ("name", Value.str "x"), ("active", Value.bool true)]
    [("bogus", Value.int 1)] "bogus" (Value.int 1) (by decide) rfl (by decide) (by decide)

/-- C4: every builder call — `filter`, `filter_by`, `order_by`, `limit`,
`offset` — produces a new `Query` whose state is the original's with the
requested piece appended (`filter`, `filter_by`) or replaced (`order_by`,
`limit`, `offset`) and every other component equal to the original's; the
builders are pure functions of the original query (each starts from
`_clone`), so the query they were invoked on is left unchanged. -/
theorem query_builders_pure (q : Query) (conditions : List String)
    (kwargs : List (String × Value)) (fieldName : String) (ascending : Bool) (n m : Int) :
    Query.filter q conditions = { q with _filters := q._filters ++ conditions } ∧
    Query.limit q n = { q with _limit := some n } ∧
    Query.offset q m = { q with _offset := some m } ∧
    (∀ q', Query.filter_by q kwargs = .ok q' →
      q'.schema = q.schema ∧ q'.db = q.db ∧ q'._orderBy = q._orderBy ∧
      q'._limit = q._limit ∧ q'._offset = q._offset ∧
      q'._filters = q._filters ++ kwargs.map (fun kv =>
        (match Query.lookupField q.schema kv.1 with
         | some f => f.name
         | Option.none => "") ++ " = ?") ∧
      q'._filterParams = q._filterParams ++ kwargs.map Prod.snd) ∧
    (∀ q' f, Query.order_by q fieldName ascending = .ok q' →
      Query.lookupField q.schema fieldName = some f →
      q' = { q with
               _orderBy := some (f.name ++ " " ++ (if ascending then "ASC" else "DESC")) }) := by
  refine ⟨rfl, rfl, rfl, ?_, ?_⟩
  · intro q' h
    exact filterByLoop_ok q.schema kwargs (Query.clone q) q' h
  · intro q' f h hl
    simp only [Query.order_by, hl, Except.ok.injEq] at h
    exact h.symm

/-- Witness for C4 at a fresh query over the test-suite schema, discharging
the success hypotheses of `filter_by` and `order_by` concretely. -/
theorem query_builders_pure_witness :
    Query.filter qW ["price > 1"] = { qW with _filters := ["price > 1"] } ∧
    Query.limit qW 2 = { qW with _limit := some 2 } ∧
    Query.offset qW 3 = { qW with _offset := some 3 } ∧
    Query.filter_by qW [("name", Value.str "x")]
      = .ok { qW with _filters := ["name = ?"], _filterParams := [Value.str "x"] } ∧
    ({ qW with _filters := ["name = ?"],
               _filterParams := [Value.str "x"] } : Query)._filterParams
      = qW._filterParams ++ [Value.str "x"] ∧
    Query.order_by qW "name" false
      = .ok { qW with _orderBy := some "name DESC" } ∧
    ({ qW with _orderBy := some "name DESC" } : Query)
      = { qW with _orderBy := some ("name" ++ " " ++ (if false then "ASC" else "DESC")) } := by
  have h := query_builders_pure qW ["price > 1"] [("name", Value.str "x")] "name" false 2 3
  refine ⟨h.1, h.2.1, h.2.2.1, rfl, ?_, rfl, ?_⟩
  · exact (h.2.2.2.1 _ rfl).2.2.2.2.2.2
  · exact (h.2.2.2.2 { qW with _orderBy := some "name DESC" } nameF rfl rfl)

/-- C5: the compiled SELECT statement lays its clauses out in the fixed
order `SELECT columns FROM table`, `WHERE` with the filters joined by
`AND` (if any), `ORDER BY` (if set), `LIMIT`, `OFFSET`; and when an offset
is set with no limit, the sentinel `LIMIT -1` (no limit) is emitted before
the `OFFSET` clause. Stated as equality with the spec-described clause
list; the hypothesis excludes the unreachable state of an empty-string
order clause (the builders only ever store `<column> ASC|DESC`, and the
source tests the clause for truthiness). -/
theorem build_sql_clause_order (q : Query) (horder : q._orderBy ≠ some "") :
    Query.build_sql q = (Query.joinSql (Query.specSqlParts q), q._filterParams) := by
  rcases ho : q._orderBy with _ | ob
  · cases hf : q._filters.isEmpty <;>
      rcases hl : q._limit with _ | ln <;>
        rcases hoff : q._offset with _ | off <;>
          simp [Query.build_sql, Query.specSqlParts, Query.joinSql, hf, ho, hl, hoff]
  · have hob : ¬(ob = "") := by
      rw [ho] at horder
      exact fun he => horder (congrArg some he)
    cases hf : q._filters.isEmpty <;>
      rcases hl : q._limit with _ | ln <;>
        rcases hoff : q._offset with _ | off <;>
          simp [Query.build_sql, Query.specSqlParts, Query.joinSql, hf, ho, hl, hoff, hob]

/-- Witness for C5: a query with an offset but no limit compiles to the
spec-ordered clause list, with the concrete sentinel `LIMIT -1` before
`OFFSET`. -/
theorem build_sql_clause_order_witness :
    (Query.offset qW 2)._orderBy ≠ some "" ∧
    Query.build_sql (Query.offset qW 2)
      = (Query.joinSql (Query.specSqlParts (Query.offset qW 2)), []) ∧
    (Query.build_sql (Query.offset qW 2)).1
      = "SELECT id, name, active FROM test_models LIMIT -1 OFFSET 2" := by
  refine ⟨by decide, ?_, rfl⟩
  exact build_sql_clause_order (Query.offset qW 2) (by decide)

/-- C3 (amended): `save` dispatches to insert exactly when the schema has
no primary key or the primary-key attribute is `None`; the insert column
list omits the primary-key column when its value is still `None` (the
statement binds the included fields' values in schema order); and the
storage-assigned row id is written back into the primary-key attribute
provided the primary-key field is an integer field — the write-back goes
through the validating setter, so a primary key of a kind whose validator
rejects integers raises instead. -/
theorem save_insert_dispatch (s : Schema) (inst : Inst) (rid : Int) :
    (saveIsInsert s inst = true ↔
      s.primaryKey = Option.none ∨
        ∃ pk, s.primaryKey = some pk ∧ getAttr inst pk = Value.none) ∧
    (∀ pk, s.primaryKey = some pk → pk ∈ s.fields → pk.primaryKey = true →
      (s.fields.map Field.name).Nodup → getAttr inst pk = Value.none →
      pk.name ∉ (insertFields s inst).map Field.name) ∧
    ((insertStmt s inst).2 = (insertFields s inst).map (fun f => getAttr inst f)) ∧
    (∀ pk, s.primaryKey = some pk → getAttr inst pk = Value.none →
      pk.kind = FieldKind.integer →
      insertWriteback s inst rid = .ok (setVal inst pk.attrName (Value.int rid)) ∧
      getVal (setVal inst pk.attrName (Value.int rid)) pk.attrName
        = some (Value.int rid)) := by
  refine ⟨?_, ?_, rfl, ?_⟩
  · unfold saveIsInsert
    cases hp : s.primaryKey with
    | none => simp
    | some pk => simp
  · intro pk hp hmem hflag hnd hnull hcontra
    obtain ⟨g, hg_mem, hg_name⟩ := List.mem_map.mp hcontra
    have hg_fields : g ∈ s.fields := List.mem_of_mem_filter hg_mem
    have hgpk : g = pk := List.inj_on_of_nodup_map hnd hg_fields hmem hg_name
    subst hgpk
    have hcond := List.of_mem_filter hg_mem
    simp [hflag, hnull] at hcond
  · intro pk hp hnull hkind
    refine ⟨?_, getVal_setVal _ _ _⟩
    simp [insertWriteback, hp, hnull, fieldSet, fieldValidate, validateValue, storeValue, hkind,
      Except.map]

/-- C3 counterexample: a schema whose primary key is a string field
(`code = StringField(primary_key=True)`). With `code` still `None`, `save`
takes the insert path and the column is omitted, but the write-back of the
integer row id raises `ValueError` from the string validator — the
storage-assigned identifier is not written into the instance. -/
theorem insert_writeback_counterexample :
    saveIsInsert schStrPk [("code", Value.none), ("name", Value.str "n")] = true ∧
    codeF.name ∉ (insertFields schStrPk
        [("code", Value.none), ("name", Value.str "n")]).map Field.name ∧
    insertWriteback schStrPk [("code", Value.none), ("name", Value.str "n")] 7
      = .error "code must be a string" := by
  refine ⟨rfl, by decide, rfl⟩

/-- Witness for C3 (amended) at the test-suite schema: an unsaved instance
inserts, omits the `id` column, and receives the row id 7 back. -/
theorem save_insert_dispatch_witness :
    saveIsInsert schT [("name", Value.str "hi")] = true ∧
    idF.name ∉ (insertFields schT [("name", Value.str "hi")]).map Field.name ∧
    insertWriteback schT [("name", Value.str "hi")] 7
      = .ok (setVal [("name", Value.str "hi")] "id" (Value.int 7)) := by
  have h := save_insert_dispatch schT [("name", Value.str "hi")] 7
  refine ⟨?_, ?_, ?_⟩
  · exact h.1.mpr (Or.inr ⟨idF, rfl, rfl⟩)
  · exact h.2.1 idF rfl (by decide) rfl (by decide) rfl
  · exact (h.2.2.2 idF rfl rfl rfl).1

/-- C8 (amended): with no primary key, `delete` raises before any SQL is
built; with a primary key, it issues
`DELETE FROM <table> WHERE <pk column> = ?` with the key value bound; and
the subsequent reset writes `None` into the primary-key attribute provided
the field is nullable — the reset goes through the validating setter, so a
non-nullable primary key raises instead. -/
theorem delete_builds_sql_and_resets (s : Schema) (inst : Inst) :
    (s.primaryKey = Option.none →
      deleteStmt s inst = .error (s.name ++ " has no primary key") ∧
      deleteReset s inst = .error (s.name ++ " has no primary key")) ∧
    (∀ pk, s.primaryKey = some pk →
      deleteStmt s inst
        = .ok ("DELETE FROM " ++ s.table ++ " WHERE " ++ pk.name ++ " = ?",
               [getAttr inst pk])) ∧
    (∀ pk, s.primaryKey = some pk → pk.nullable = true →
      deleteReset s inst = .ok (setVal inst pk.attrName Value.none) ∧
      getVal (setVal inst pk.attrName Value.none) pk.attrName = some Value.none) := by
  refine ⟨?_, ?_, ?_⟩
  · intro hp
    exact ⟨by simp [deleteStmt, hp], by simp [deleteReset, hp]⟩
  · intro pk hp
    simp [deleteStmt, hp]
  · intro pk hp hn
    refine ⟨?_, getVal_setVal _ _ _⟩
    have hfs : fieldSet pk Value.none = .ok Value.none := by
      cases hk : pk.kind <;>
        simp [fieldSet, fieldValidate, validateValue, storeValue, boolCoerce, hn, hk]
    simp [deleteReset, hp, hfs, Except.map]

/-- C8 counterexample: a schema whose primary key is declared
`nullable=False`. `delete` builds and issues the DELETE statement, but the
subsequent reset of the key to `None` raises the not-nullable `ValueError`
instead of resetting — the instance keeps its old key. -/
theorem delete_reset_counterexample :
    deleteStmt schNNPk [("id", Value.int 3), ("name", Value.str "n")]
      = .ok ("DELETE FROM stricts WHERE id = ?", [Value.int 3]) ∧
    deleteReset schNNPk [("id", Value.int 3), ("name", Value.str "n")]
      = .error "id cannot be None" := ⟨rfl, rfl⟩

/-- Witness for C8 (amended): no-primary-key schema fails before SQL; the
test-suite schema issues the DELETE and resets `id` to `None`. -/
theorem delete_builds_sql_and_resets_witness :
    deleteStmt schNoPk [("name", Value.str "n")] = .error "Plain has no primary key" ∧
    deleteStmt schT [("id", Value.int 3)]
      = .ok ("DELETE FROM test_models WHERE id = ?", [Value.int 3]) ∧
    deleteReset schT [("id", Value.int 3)] = .ok [("id", Value.none)] := by
  refine ⟨?_, ?_, ?_⟩
  · exact ((delete_builds_sql_and_resets schNoPk [("name", Value.str "n")]).1 rfl).1
  · exact (delete_builds_sql_and_resets schT [("id", Value.int 3)]).2.1 idF rfl
  · exact ((delete_builds_sql_and_resets schT [("id", Value.int 3)]).2.2 idF rfl rfl).1

/-- C7: `get(id)` equals the composition
`select().filter_by(primary_key = id).first()`; with a primary key it
returns an absent result when `fetch_one` finds no row and the hydrated
record when a (non-empty) row comes back and hydrates; without a primary
key it raises before querying. The query the composition builds runs
against the same database and schema `get` was called with. -/
theorem get_refines_composition (db : Db) (s : Schema) (id : Value) :
    get db s id = getAsSpelledInSpec db s id ∧
    (s.primaryKey = Option.none →
      get db s id = .error (.valueError (s.name ++ " has no primary key"))) ∧
    (∀ pk q, s.primaryKey = some pk →
      Query.filter_by (select db s) [(pk.attrName, id)] = .ok q →
      q.db = db ∧ q.schema = s ∧
      (q.db.fetchOne (Query.build_sql { Query.clone q with _limit := some 1 }).1
          (Query.build_sql { Query.clone q with _limit := some 1 }).2 = Option.none →
        get db s id = .ok Option.none) ∧
      (∀ row m,
        q.db.fetchOne (Query.build_sql { Query.clone q with _limit := some 1 }).1
            (Query.build_sql { Query.clone q with _limit := some 1 }).2 = some row →
        row ≠ [] → Query.rowToModel q.schema row = .ok m →
        get db s id = .ok (some m))) := by
  refine ⟨?_, ?_, ?_⟩
  · unfold get getAsSpelledInSpec
    cases hp : s.primaryKey with
    | none => rfl
    | some pk =>
      cases hfb : Query.filter_by (select db s) [(pk.attrName, id)] <;>
        simp [hfb, Except.bind]
  · intro hp
    simp [get, hp]
  · intro pk q hp hfb
    obtain ⟨hsch, hdb, _, _, _, _, _⟩ :=
      filterByLoop_ok (select db s).schema [(pk.attrName, id)]
        (Query.clone (select db s)) q hfb
    refine ⟨hdb, hsch, ?_, ?_⟩
    · intro hnone
      simp [get, hp, hfb, Query.first, hnone]
    · intro row m hrow hne hm
      have hempty : row.isEmpty = false := by
        cases row with
        | nil => exact absurd rfl hne
        | cons a l => rfl
      simp [get, hp, hfb, Query.first, hrow, hempty, hm, Except.map]

/-- Witness for C7: over the test-suite schema and an empty store, `get 3`
is absent; over the no-primary-key schema, `get` raises. -/
theorem get_refines_composition_witness :
    get dbNone schT (Value.int 3) = .ok Option.none ∧
    get dbNone schNoPk (Value.int 3)
      = .error (.valueError ("Plain" ++ " has no primary key")) := by
  refine ⟨?_, (get_refines_composition dbNone schNoPk (Value.int 3)).2.1 rfl⟩
  have h := (get_refines_composition dbNone schT (Value.int 3)).2.2 idF
    { select dbNone schT with _filters := ["id = ?"], _filterParams := [Value.int 3] }
    rfl rfl
  exact h.2.2.1 rfl

end Orm
